import Mathlib

/-!
Shallow embedding of `src/functions/image-processing/index.mjs` (the AWS
image-optimizer Lambda handler) and proofs about its directive parser,
transform executor and pipeline orchestrator.

The image codec (Sharp), the HTTP fetch and the S3 client are external
collaborators: they are modelled as opaque parameters (an `engine` function
from a transform plan and source bytes to output bytes, a fetch result, a
put-success flag).  Everything the handler itself computes — path splitting,
directive parsing via `Object.fromEntries`, JS truthiness checks, `parseInt`,
the format switch, the size guard, and the response selection — is embedded
faithfully from the source.
-/

namespace ImageOpt

/-- A JS value read out of the operations object: `none` models a property
that `Object.fromEntries` set from a token without `=` (value `undefined`);
`some s` models a string property. -/
abbrev JSVal := Option String

/-- A JS object mapped from string keys, as an insertion-ordered
association list with unique keys (JS object semantics). -/
abbrev Obj := List (String × JSVal)

/-- Splitting a character list on a separator character, accumulating the
current segment in reverse. -/
def splitCharAux (sep : Char) : List Char → List Char → List (List Char)
  | [], acc => [acc.reverse]
  | c :: rest, acc =>
      if c = sep then acc.reverse :: splitCharAux sep rest []
      else splitCharAux sep rest (c :: acc)

/-- JS `s.split(sep)` for a one-character separator: splits on every
occurrence; the empty string yields `[""]`. -/
def jsSplit (sep : Char) (s : String) : List String :=
  (splitCharAux sep s.data []).map String.mk

/-- JS `arr.join(sep)` for a one-character separator. -/
def jsJoin (sep : Char) : List String → String
  | [] => ""
  | [s] => s
  | s :: t :: rest => s ++ String.mk [sep] ++ jsJoin sep (t :: rest)

/-- JS `s.replace(/c/g, d)` for one-character pattern and replacement:
replace every occurrence. -/
def jsReplaceAll (c d : Char) (s : String) : String :=
  String.mk (s.data.map (fun x => if x = c then d else x))

/-- JS property assignment `o[k] = v`: overwrite in place if the key exists,
else append (insertion order preserved, keys stay unique). -/
def objSet (o : Obj) (k : String) (v : JSVal) : Obj :=
  match o with
  | [] => [(k, v)]
  | p :: rest => if p.1 = k then (k, v) :: rest else p :: objSet rest k v

/-- JS property read `o[k]`: `none` means the key is absent (`undefined`). -/
def objGet (o : Obj) (k : String) : Option JSVal :=
  match o with
  | [] => none
  | p :: rest => if p.1 = k then some p.2 else objGet rest k

/-- `Object.fromEntries(entries)`: build the object left to right. -/
def fromEntries (l : List (String × JSVal)) : Obj :=
  l.foldl (fun o e => objSet o e.1 e.2) []

/-- `operation.split('=')` fed to `Object.fromEntries`: JS `split` splits on
every `=`; `fromEntries` keeps only components 0 and 1 of each entry array.
A token without `=` yields `undefined` as the value. -/
def tokenToEntry (t : String) : String × JSVal :=
  match jsSplit '=' t with
  | [] => (t, none)
  | [k] => (k, none)
  | k :: v :: _ => (k, some v)

/-- Line 55: `Object.fromEntries(operationsPrefix.split(',').map(operation =>
operation.split('=')))`. -/
def parseOperations (directiveStr : String) : Obj :=
  fromEntries ((jsSplit ',' directiveStr).map tokenToEntry)

/-- JS truthiness of a property read (`if (operationsJSON['width'])`
combined with the use of the value under the guard): returns the string
value when the property exists and is a truthy (non-empty) string,
else `none` (absent key, `undefined` value, or empty string). -/
def truthyVal (v : Option JSVal) : Option String :=
  match v with
  | some (some s) => if s = "" then none else some s
  | _ => none

/-- Result of JS `parseInt`: `none` models `NaN`. -/
abbrev JSInt := Option Int

/-- Hexadecimal digit predicate used by `parseInt` with a `0x` prefix. -/
def isHexDigit (c : Char) : Bool :=
  c.isDigit || ('a' ≤ c && c ≤ 'f') || ('A' ≤ c && c ≤ 'F')

/-- Numeric value of a (decimal or hex) digit character. -/
def digitVal (c : Char) : Nat :=
  if c.isDigit then c.toNat - '0'.toNat
  else if 'a' ≤ c && c ≤ 'f' then c.toNat - 'a'.toNat + 10
  else if 'A' ≤ c && c ≤ 'F' then c.toNat - 'A'.toNat + 10
  else 0

/-- JS `parseInt(s)` with no radix argument: skip leading whitespace, read an
optional sign, honour a `0x`/`0X` hex prefix, take the longest valid digit
prefix; `NaN` (here `none`) when no digit is found. -/
def parseIntJS (s : String) : JSInt :=
  let l := s.toList.dropWhile Char.isWhitespace
  let (sign, l1) : Int × List Char :=
    match l with
    | '-' :: t => (-1, t)
    | '+' :: t => (1, t)
    | _ => (1, l)
  let (base, isDig, l2) : Nat × (Char → Bool) × List Char :=
    match l1 with
    | '0' :: 'x' :: t => (16, isHexDigit, t)
    | '0' :: 'X' :: t => (16, isHexDigit, t)
    | _ => (10, Char.isDigit, l1)
  let ds := l2.takeWhile isDig
  if ds.isEmpty then none
  else some (sign * (ds.foldl (fun a c => a * base + digitVal c) 0 : Nat))

/-- The `resizingOptions` object built on lines 62–65: each field is absent
(`none`) or holds a `parseInt` result (which may be `NaN`, i.e. `some none`). -/
structure ResizingOptions where
  width : Option JSInt := none
  height : Option JSInt := none
deriving DecidableEq, Repr

/-- The `toFormat` invocation on lines 79–83: the format string, and the
quality option when one was passed (`some q` models `{ quality: q }`,
`none` models the one-argument call). -/
structure FormatCall where
  format : String
  quality : Option JSInt := none
deriving DecidableEq, Repr

/-- The sequence of codec operations the handler requests from Sharp for one
invocation: `resize(resizingOptions)` (always called — an empty JS object is
truthy), conditional `rotate()`, and an optional `toFormat` call. -/
structure TransformPlan where
  resize : ResizingOptions
  rotate : Bool
  formatCall : Option FormatCall := none
deriving DecidableEq, Repr

/-- Truthiness of `imageMetadata.orientation` (a JS number or `undefined`):
`0` and `undefined` are falsy. -/
def orientationTruthy (o : Option Int) : Bool :=
  match o with
  | none => false
  | some n => n ≠ 0

/-- The `switch (operationsJSON['format'])` on lines 70–77: resolved content
type and the `isLossy` flag (initialised `false`; `gif` and `png` leave it
`false`, the `default` branch sets `image/jpeg` and lossy). -/
def formatSwitch (f : String) : String × Bool :=
  if f = "jpeg" then ("image/jpeg", true)
  else if f = "gif" then ("image/gif", false)
  else if f = "webp" then ("image/webp", true)
  else if f = "png" then ("image/png", false)
  else if f = "avif" then ("image/avif", true)
  else ("image/jpeg", true)

/-- Lines 60–88: build the transform plan and resolve the content type from
the parsed operations, the source metadata orientation and the content type
declared by the fetch response (`none` models a missing header, JS `null`). -/
def executeOps (ops : Obj) (orientation : Option Int) (srcCT : Option String) :
    TransformPlan × Option String :=
  let resizingOptions : ResizingOptions :=
    { width := (truthyVal (objGet ops "width")).map parseIntJS,
      height := (truthyVal (objGet ops "height")).map parseIntJS }
  let rot := orientationTruthy orientation
  match truthyVal (objGet ops "format") with
  | some f =>
      let fc : FormatCall :=
        match truthyVal (objGet ops "quality"), (formatSwitch f).2 with
        | some q, true => { format := f, quality := some (parseIntJS q) }
        | _, _ => { format := f }
      ({ resize := resizingOptions, rotate := rot, formatCall := some fc },
        some (formatSwitch f).1)
  | none =>
      let ct := if srcCT = some "image/svg+xml" then some "image/png" else srcCT
      ({ resize := resizingOptions, rotate := rot, formatCall := none }, ct)

/-- Transformed image bytes, modelled as a list of byte values. -/
abbrev Bytes := List Nat

/-- Process configuration read from the environment.  `transformedBucket`
models `S3_TRANSFORMED_IMAGE_BUCKET` (`none` = variable unset, i.e. JS
`undefined`); `maxImageSize` is the parsed `MAX_IMAGE_SIZE`; `cacheTTL` is
`TRANSFORMED_IMAGE_CACHE_TTL`. -/
structure Env where
  transformedBucket : Option String := none
  maxImageSize : Int
  cacheTTL : Option String := none

/-- JS truthiness of an optional string (env var / header value). -/
def strTruthy (s : Option String) : Bool :=
  match s with
  | none => false
  | some s => s ≠ ""

/-- The external collaborators of one invocation, as observed results:
 * `fetchResult`: `none` when `fetch` throws or `!response.ok`
   (both rejoin in the same `catch`); otherwise the body bytes and the
   `content-type` header (`none` = header missing, JS `null`);
 * `orientation`: `imageMetadata.orientation` from Sharp's metadata;
 * `engine`: the opaque Sharp codec — given the requested plan and the source
   bytes it returns the encoded bytes, or `none` when it throws;
 * `putOk`: whether `s3Client.send(putImageCommand)` resolves. -/
structure Effects where
  fetchResult : Option (Bytes × Option String)
  orientation : Option Int := none
  engine : TransformPlan → Bytes → Option Bytes
  putOk : Bool := true

/-- A terminal result of the handler.  `err` covers every `sendError`
return (`{ statusCode, body }`); `redirect` is the 302 return with its
`Location` and `Cache-Control` headers; `ok` is the 200 return with the
transformed bytes, resolved `Content-Type` and `Cache-Control`. -/
inductive Outcome where
  | err (statusCode : Nat) (msg : String)
  | redirect (location : String) (cacheControl : String)
  | ok (body : Bytes) (contentType : Option String) (cacheControl : Option String)
deriving DecidableEq, Repr

/-- The HTTP status code of an outcome. -/
def Outcome.status : Outcome → Nat
  | .err s _ => s
  | .redirect _ _ => 302
  | .ok _ _ _ => 200

/-- Lines 23–30: `path.split('/')`, `pop()` the directive segment, `shift()`
the empty root segment, re-`join('/')` the original image path.  Returns
(originalImagePath, operationsPrefix). -/
def pathParts (path : String) : String × String :=
  let arr := jsSplit '/' path
  (jsJoin '/' (arr.dropLast.drop 1), arr.getLastD "")

/-- The handler (lines 20–143), with the codec, fetch and S3 collaborators
supplied through `eff`.  The second component records whether a cache write
(`s3Client.send` of the `PutObjectCommand`) was attempted. -/
def handler (env : Env) (eff : Effects) (method : String) (path : String) :
    Outcome × Bool :=
  if method ≠ "GET" then (.err 400 "Only GET method is supported", false)
  else
    let originalImagePath := (pathParts path).1
    let directiveStr := (pathParts path).2
    match eff.fetchResult with
    | none => (.err 500 ("Error downloading original image"), false)
    | some (body, srcCT) =>
      let ops := parseOperations directiveStr
      let planCT := executeOps ops eff.orientation srcCT
      let contentType := planCT.2
      match eff.engine planCT.1 body with
      | none => (.err 500 "error transforming image", false)
      | some transformedImage =>
        let imageTooBig : Bool := (transformedImage.length : Int) > env.maxImageSize
        let inlineResult : Outcome :=
          if imageTooBig then .err 403 "Requested transformed image is too big"
          else .ok transformedImage contentType env.cacheTTL
        if strTruthy env.transformedBucket then
          if eff.putOk then
            if imageTooBig then
              (.redirect ("/" ++ originalImagePath ++ "?" ++
                  jsReplaceAll ',' '&' directiveStr) "private,no-store", true)
            else (inlineResult, true)
          else (inlineResult, true)
        else (inlineResult, false)

/-! ### Helper lemmas about the `Object.fromEntries` model -/

/-- Reading a key after a JS property assignment. -/
theorem objGet_objSet (o : Obj) (k k' : String) (v : JSVal) :
    objGet (objSet o k v) k' = if k = k' then some v else objGet o k' := by
  induction o with
  | nil => by_cases h : k = k' <;> simp [objSet, objGet, h]
  | cons p rest ih =>
      by_cases hp : p.1 = k <;> by_cases h : k = k' <;>
        simp_all [objSet, objGet]

/-- The value of the last entry of `l` whose key is `k`, if any. -/
def lastEntryVal (l : List (String × JSVal)) (k : String) : Option JSVal :=
  match l with
  | [] => none
  | e :: rest =>
      match lastEntryVal rest k with
      | some v => some v
      | none => if e.1 = k then some e.2 else none

/-- Reading a key after folding JS property assignments over an entry list:
the last matching entry wins, and the starting object supplies the fallback. -/
theorem objGet_foldl_objSet (l : List (String × JSVal)) (o : Obj) (k : String) :
    objGet (l.foldl (fun acc e => objSet acc e.1 e.2) o) k =
      match lastEntryVal l k with
      | some v => some v
      | none => objGet o k := by
  induction l generalizing o with
  | nil => simp [lastEntryVal]
  | cons e l ih =>
      simp only [List.foldl_cons, lastEntryVal, ih, objGet_objSet]
      cases lastEntryVal l k <;> by_cases h : e.1 = k <;> simp [h]

/-- `Object.fromEntries` lookup: the last entry with the key wins. -/
theorem objGet_fromEntries (l : List (String × JSVal)) (k : String) :
    objGet (fromEntries l) k = lastEntryVal l k := by
  rw [fromEntries, objGet_foldl_objSet]
  cases lastEntryVal l k <;> simp [objGet]

/-- Membership in the key set after a JS property assignment. -/
theorem mem_keys_objSet (o : Obj) (k x : String) (v : JSVal) :
    x ∈ (objSet o k v).map Prod.fst ↔ x ∈ o.map Prod.fst ∨ x = k := by
  induction o with
  | nil => simp [objSet]
  | cons p rest ih =>
      by_cases hp : p.1 = k <;> simp_all [objSet]
      tauto

/-- JS property assignment keeps the key set duplicate-free. -/
theorem nodup_keys_objSet (o : Obj) (k : String) (v : JSVal)
    (h : (o.map Prod.fst).Nodup) : ((objSet o k v).map Prod.fst).Nodup := by
  induction o with
  | nil => simp [objSet]
  | cons p rest ih =>
      by_cases hp : p.1 = k
      · simpa [objSet, hp] using h
      · simp only [objSet, if_neg hp, List.map_cons, List.nodup_cons] at h ⊢
        refine ⟨fun hm => ?_, ih h.2⟩
        rcases (mem_keys_objSet rest k p.1 v).mp hm with hm | hm
        · exact h.1 hm
        · exact hp hm

/-- The key set of `Object.fromEntries` output is duplicate-free. -/
theorem nodup_keys_fromEntries (l : List (String × JSVal)) :
    ((fromEntries l).map Prod.fst).Nodup := by
  rw [fromEntries]
  have h : ∀ (o : Obj), (o.map Prod.fst).Nodup →
      ((l.foldl (fun acc e => objSet acc e.1 e.2) o).map Prod.fst).Nodup := by
    induction l with
    | nil => exact fun o ho => ho
    | cons e l ih =>
        intro o ho
        exact ih _ (nodup_keys_objSet o e.1 e.2 ho)
  exact h [] (by simp)

/-! ### Claim theorems -/

/-- Claim C10: when a directive string repeats an operation key, the parsed
operation object maps that key to the value of its last occurrence among the
directive's tokens, earlier occurrences are discarded, and the parsed
object's key set is duplicate-free; e.g. `width=100,width=200` maps `width`
to `"200"`. -/
theorem C10_duplicate_keys_last_wins (d : String) (k : String) :
    objGet (parseOperations d) k = lastEntryVal ((jsSplit ',' d).map tokenToEntry) k ∧
    ((parseOperations d).map Prod.fst).Nodup ∧
    objGet (parseOperations "width=100,width=200") "width" = some (some "200") :=
  ⟨objGet_fromEntries _ _, nodup_keys_fromEntries _, by decide⟩

/-- Claim C5 as stated fails: for the token `key=v1=v2` the parsed operation
object maps `key` to `"v1"` (JS `split('=')` splits on every equals sign and
`Object.fromEntries` reads only the first two components of the entry
array), not to `"v1=v2"`. -/
theorem C5_counterexample :
    objGet (parseOperations "key=v1=v2") "key" = some (some "v1") ∧
    objGet (parseOperations "key=v1=v2") "key" ≠ some (some "v1=v2") := by
  decide

/-- Claim C5 (amended): each token is split on every `=` and only the first
two components are kept, so a token `key=v1=v2` maps `key` to `"v1"`, the
text between the first and the second `=`; everything after the second `=`
is discarded. -/
theorem C5_first_two_components :
    (∀ (t k v : String) (r : List String), jsSplit '=' t = k :: v :: r →
        tokenToEntry t = (k, some v)) ∧
    objGet (parseOperations "key=v1=v2") "key" = some (some "v1") := by
  refine ⟨fun t k v r h => ?_, by decide⟩
  simp [tokenToEntry, h]

/-- Concrete instantiation of `C5_first_two_components`. -/
theorem C5_first_two_components_witness :
    tokenToEntry "key=v1=v2" = ("key", some "v1") :=
  C5_first_two_components.1 "key=v1=v2" "key" "v1" ["v2"] (by decide)

/-- Claim C4 (amended): a directive whose `format` value is none of jpeg,
gif, webp, png, avif resolves the content type to `image/jpeg` (the switch's
`default` branch), and the executor passes the unrecognized format string
verbatim in its `toFormat` call — the handler itself raises no error for an
unrecognized format, and the codec then decides whether the transform
succeeds. -/
theorem C4_unknown_format_defaults_jpeg (ops : Obj) (o : Option Int)
    (ct : Option String) (f : String)
    (hf : truthyVal (objGet ops "format") = some f)
    (hn : f ∉ (["jpeg", "gif", "webp", "png", "avif"] : List String)) :
    (executeOps ops o ct).2 = some "image/jpeg" ∧
    ∃ fc : FormatCall,
      (executeOps ops o ct).1.formatCall = some fc ∧ fc.format = f := by
  simp only [List.mem_cons, List.not_mem_nil, or_false, not_or] at hn
  obtain ⟨h1, h2, h3, h4, h5⟩ := hn
  have hsw : formatSwitch f = ("image/jpeg", true) := by
    simp [formatSwitch, h1, h2, h3, h4, h5]
  simp only [executeOps, hf, hsw]
  cases truthyVal (objGet ops "quality") <;> simp

/-- Concrete instantiation of `C4_unknown_format_defaults_jpeg` at
`format=bmp`. -/
theorem C4_unknown_format_defaults_jpeg_witness :
    (executeOps (parseOperations "format=bmp") none (some "image/svg+xml")).2
        = some "image/jpeg" ∧
    ∃ fc : FormatCall,
      (executeOps (parseOperations "format=bmp") none
          (some "image/svg+xml")).1.formatCall = some fc ∧ fc.format = "bmp" :=
  C4_unknown_format_defaults_jpeg (parseOperations "format=bmp") none
    (some "image/svg+xml") "bmp" (by decide) (by decide)

/-- Claim C7 as stated fails in its "only when the format key is absent"
half: the directive `format=,width=100` contains the `format` key (with
empty value), yet the svg-to-png override is still applied, because the
handler tests JS truthiness of the value (an empty string is falsy), not
presence of the key. -/
theorem C7_counterexample :
    objGet (parseOperations "format=,width=100") "format" = some (some "") ∧
    (executeOps (parseOperations "format=,width=100") none
        (some "image/svg+xml")).2 = some "image/png" := by
  decide

/-- Claim C7 (amended): when the `format` field is absent or empty (falsy),
the resolved content type is the source's declared content type except that
`image/svg+xml` becomes `image/png`; when a truthy `format` value is
present, the content type comes solely from the format switch, so the
svg-to-png override applies exactly when the format field is absent or
empty, never when a non-empty format value is given. -/
theorem C7_svg_override (ops : Obj) (o : Option Int) (srcCT : Option String) :
    (truthyVal (objGet ops "format") = none →
      (executeOps ops o srcCT).2 =
        if srcCT = some "image/svg+xml" then some "image/png" else srcCT) ∧
    (∀ f : String, truthyVal (objGet ops "format") = some f →
      (executeOps ops o srcCT).2 = some (formatSwitch f).1) := by
  constructor
  · intro h
    simp [executeOps, h]
  · intro f h
    simp [executeOps, h]

/-- Concrete instantiation of `C7_svg_override`: an svg source is forced to
png when the directive has no format, and a `format=webp` directive resolves
through the switch even for an svg source. -/
theorem C7_svg_override_witness :
    (executeOps (parseOperations "original") none (some "image/svg+xml")).2
        = some "image/png" ∧
    (executeOps (parseOperations "format=webp") none (some "image/svg+xml")).2
        = some (formatSwitch "webp").1 := by
  constructor
  · have h := (C7_svg_override (parseOperations "original") none
      (some "image/svg+xml")).1 (by decide)
    simpa using h
  · exact (C7_svg_override (parseOperations "format=webp") none
      (some "image/svg+xml")).2 "webp" (by decide)

/-- Claim C6: with a non-lossy target format (png or gif) the quality field
does not influence the executor output: two operation objects that agree on
width and height and both select the same format f ∈ {png, gif} — whatever
their quality fields — produce identical transform plans and content types,
hence byte-identical output under every deterministic codec and source. -/
theorem C6_quality_ignored_for_nonlossy (ops1 ops2 : Obj) (o : Option Int)
    (ct : Option String) (f : String)
    (hf : f = "png" ∨ f = "gif")
    (h1 : truthyVal (objGet ops1 "format") = some f)
    (h2 : truthyVal (objGet ops2 "format") = some f)
    (hw : objGet ops1 "width" = objGet ops2 "width")
    (hh : objGet ops1 "height" = objGet ops2 "height") :
    executeOps ops1 o ct = executeOps ops2 o ct ∧
    ∀ (engine : TransformPlan → Bytes → Option Bytes) (body : Bytes),
      engine (executeOps ops1 o ct).1 body = engine (executeOps ops2 o ct).1 body := by
  have hsw : (formatSwitch f).2 = false := by
    rcases hf with rfl | rfl <;> decide
  have key : executeOps ops1 o ct = executeOps ops2 o ct := by
    simp only [executeOps, h1, h2, hw, hh, hsw]
    cases truthyVal (objGet ops1 "quality") <;>
      cases truthyVal (objGet ops2 "quality") <;> simp
  exact ⟨key, fun engine body => by rw [key]⟩

/-- Concrete instantiation of `C6_quality_ignored_for_nonlossy`: the
`format=png` executor output with quality 80 and with quality 10. -/
theorem C6_quality_ignored_for_nonlossy_witness :
    executeOps (parseOperations "format=png,quality=80") none none =
      executeOps (parseOperations "format=png,quality=10") none none :=
  (C6_quality_ignored_for_nonlossy (parseOperations "format=png,quality=80")
    (parseOperations "format=png,quality=10") none none "png" (Or.inl rfl)
    (by decide) (by decide) (by decide) (by decide)).1

/-- An engine that rejects a resize plan whose width option is `NaN`, as the
real Sharp codec does (`Expected positive integer for width`), and otherwise
returns the source bytes unchanged. -/
def nanRejectingEngine : TransformPlan → Bytes → Option Bytes :=
  fun plan body => if plan.resize.width = some none then none else some body

/-- Environment with no cache bucket configured and a large size limit. -/
def envNoCache : Env :=
  { transformedBucket := none, maxImageSize := 1000000,
    cacheTTL := some "max-age=31622400" }

/-- Effects of a successful 3-byte fetch run through `nanRejectingEngine`. -/
def effNan : Effects :=
  { fetchResult := some ([1, 2, 3], some "image/jpeg"), orientation := none,
    engine := nanRejectingEngine, putOk := true }

/-- Claim C1 as stated fails: for the directive `width=abc` the executor does
not treat the malformed field as absent — it stores `parseInt('abc') = NaN`
in the resize options, so the transform plan differs from the omitted-field
plan, and under an engine that (like Sharp) rejects a NaN width the request
fails with a 500 while the same request without the field succeeds. -/
theorem C1_counterexample :
    (executeOps (parseOperations "width=abc") none (some "image/jpeg")).1 ≠
      (executeOps (parseOperations "original") none (some "image/jpeg")).1 ∧
    handler envNoCache effNan "GET" "/img/a.jpg/width=abc"
      = (.err 500 "error transforming image", false) ∧
    handler envNoCache effNan "GET" "/img/a.jpg/original"
      = (.ok [1, 2, 3] (some "image/jpeg") (some "max-age=31622400"), false) := by
  decide

/-- Claim C1 (amended): a non-numeric value for `width` or `height` is not
dropped — JS `parseInt` yields `NaN`, and the `NaN` is stored in the resize
options handed to the codec, which then decides whether the request fails;
the same holds for `quality` exactly when a lossy format is selected (the
`toFormat` call receives quality `NaN`), while `quality` is ignored —
whatever its value — when the selected format is non-lossy or absent; and
only a falsy (absent, `undefined`, or empty) field is omitted from the
options. -/
theorem C1_nan_passed_through (ops : Obj) (o : Option Int) (ct : Option String) :
    (∀ s : String, truthyVal (objGet ops "width") = some s →
      parseIntJS s = none →
      ((executeOps ops o ct).1).resize.width = some none) ∧
    (∀ s : String, truthyVal (objGet ops "height") = some s →
      parseIntJS s = none →
      ((executeOps ops o ct).1).resize.height = some none) ∧
    (∀ s f : String, truthyVal (objGet ops "quality") = some s →
      parseIntJS s = none → truthyVal (objGet ops "format") = some f →
      (formatSwitch f).2 = true →
      ((executeOps ops o ct).1).formatCall
        = some { format := f, quality := some none }) ∧
    (∀ f : String, truthyVal (objGet ops "format") = some f →
      (formatSwitch f).2 = false →
      ((executeOps ops o ct).1).formatCall
        = some { format := f, quality := none }) ∧
    (truthyVal (objGet ops "format") = none →
      ((executeOps ops o ct).1).formatCall = none) ∧
    (truthyVal (objGet ops "width") = none →
      ((executeOps ops o ct).1).resize.width = none) := by
  refine ⟨?_, ?_, ?_, ?_, ?_, ?_⟩
  · intro s hw hn
    cases hf : truthyVal (objGet ops "format") <;>
      simp [executeOps, hf, hw, hn]
  · intro s hh hn
    cases hf : truthyVal (objGet ops "format") <;>
      simp [executeOps, hf, hh, hn]
  · intro s f hq hn hf hl
    simp [executeOps, hf, hq, hl, hn]
  · intro f hf hl
    cases hq : truthyVal (objGet ops "quality") <;>
      simp [executeOps, hf, hq, hl]
  · intro hf
    simp [executeOps, hf]
  · intro hw
    cases hf : truthyVal (objGet ops "format") <;>
      simp [executeOps, hf, hw]

/-- Concrete instantiation of `C1_nan_passed_through`: NaN width and height
for `width=abc,height=def`; NaN quality passed for `format=webp,quality=abc`;
quality dropped for `format=png,quality=abc`; `width=` treated as absent. -/
theorem C1_nan_passed_through_witness :
    ((executeOps (parseOperations "width=abc,height=def") none none).1).resize.width
        = some none ∧
    ((executeOps (parseOperations "width=abc,height=def") none none).1).resize.height
        = some none ∧
    ((executeOps (parseOperations "format=webp,quality=abc") none none).1).formatCall
        = some { format := "webp", quality := some none } ∧
    ((executeOps (parseOperations "format=png,quality=abc") none none).1).formatCall
        = some { format := "png", quality := none } ∧
    ((executeOps (parseOperations "width=") none none).1).resize.width = none := by
  refine ⟨?_, ?_, ?_, ?_, ?_⟩
  · exact (C1_nan_passed_through (parseOperations "width=abc,height=def")
      none none).1 "abc" (by decide) (by decide)
  · exact (C1_nan_passed_through (parseOperations "width=abc,height=def")
      none none).2.1 "def" (by decide) (by decide)
  · exact (C1_nan_passed_through (parseOperations "format=webp,quality=abc")
      none none).2.2.1 "abc" "webp" (by decide) (by decide) (by decide) (by decide)
  · exact (C1_nan_passed_through (parseOperations "format=png,quality=abc")
      none none).2.2.2.1 "png" (by decide) (by decide)
  · exact (C1_nan_passed_through (parseOperations "width=") none none).2.2.2.2.2
      (by decide)

/-- An engine that, like stock Sharp's `toFormat`, rejects a format string
outside its known set and otherwise returns the source bytes unchanged. -/
def unknownFormatRejecting : TransformPlan → Bytes → Option Bytes :=
  fun plan body =>
    match plan.formatCall with
    | some fc =>
        if fc.format ∈ (["jpeg", "gif", "webp", "png", "avif"] : List String)
        then some body else none
    | none => some body

/-- Effects of a successful 3-byte fetch run through
`unknownFormatRejecting`. -/
def effBmp : Effects :=
  { fetchResult := some ([1, 2, 3], some "image/jpeg"), orientation := none,
    engine := unknownFormatRejecting, putOk := true }

/-- Claim C4 as stated fails in its "the transform succeeds" half: for
`format=bmp` the handler resolves content type `image/jpeg` but passes the
string `bmp` verbatim to `toFormat`, and under a codec that — like stock
Sharp — rejects format strings outside its known set, the request fails
with a 500 instead of succeeding. -/
theorem C4_counterexample :
    (executeOps (parseOperations "format=bmp") none (some "image/jpeg")).2
        = some "image/jpeg" ∧
    (executeOps (parseOperations "format=bmp") none (some "image/jpeg")).1.formatCall
        = some { format := "bmp", quality := none } ∧
    handler envNoCache effBmp "GET" "/img/a.jpg/format=bmp"
      = (.err 500 "error transforming image", false) := by
  decide

/-- Claim C2: an oversized transform with a configured cache store and a
successful cache write redirects with status 302, `Location` built as `/` +
original image path + `?` + the directive string with every comma replaced
by an ampersand, and `Cache-Control: private,no-store`; the pair's second
component records that the cache write was attempted. -/
theorem C2_oversized_redirect (env : Env) (eff : Effects) (path : String)
    (b t : Bytes) (ct : Option String)
    (hfetch : eff.fetchResult = some (b, ct))
    (heng : eff.engine
        (executeOps (parseOperations (pathParts path).2) eff.orientation ct).1 b
      = some t)
    (hbig : (t.length : Int) > env.maxImageSize)
    (hbucket : strTruthy env.transformedBucket = true)
    (hput : eff.putOk = true) :
    handler env eff "GET" path =
      (.redirect ("/" ++ (pathParts path).1 ++ "?" ++
          jsReplaceAll ',' '&' (pathParts path).2) "private,no-store", true) := by
  simp [handler, hfetch, heng, hbucket, hput, hbig]

/-- Environment with a configured cache bucket and a 2-byte size limit. -/
def envCacheTwo : Env :=
  { transformedBucket := some "transformed-bucket", maxImageSize := 2,
    cacheTTL := some "max-age=31622400" }

/-- Effects of a 2-byte fetch through a codec that doubles the bytes. -/
def effDoubling : Effects :=
  { fetchResult := some ([9, 9], some "image/jpeg"), orientation := some 6,
    engine := fun _ body => some (body ++ body), putOk := true }

/-- Concrete instantiation of `C2_oversized_redirect`. -/
theorem C2_oversized_redirect_witness :
    handler envCacheTwo effDoubling "GET" "/images/rio/1.jpeg/width=100,format=webp"
      = (.redirect "/images/rio/1.jpeg?width=100&format=webp"
          "private,no-store", true) := by
  rw [C2_oversized_redirect envCacheTwo effDoubling
    "/images/rio/1.jpeg/width=100,format=webp" [9, 9] [9, 9, 9, 9]
    (some "image/jpeg") (by decide) (by decide) (by decide) (by decide)
    (by decide)]
  decide

/-- Claim C3: an oversized transform with no configured cache store, or with
a failing cache write, ends in `Failure(403)`; and no invocation at all
returns a 200 outcome whose body exceeds the configured maximum — a 200
outcome implies the body length is not greater than `maxImageSize`. -/
theorem C3_oversized_never_inline (env : Env) (eff : Effects) (path : String)
    (b t : Bytes) (ct : Option String)
    (hfetch : eff.fetchResult = some (b, ct))
    (heng : eff.engine
        (executeOps (parseOperations (pathParts path).2) eff.orientation ct).1 b
      = some t)
    (hbig : (t.length : Int) > env.maxImageSize)
    (hnc : strTruthy env.transformedBucket = false ∨ eff.putOk = false) :
    (handler env eff "GET" path).1
        = .err 403 "Requested transformed image is too big" ∧
    ∀ (env2 : Env) (eff2 : Effects) (m p : String) (body : Bytes)
      (ct2 cc : Option String),
      (handler env2 eff2 m p).1 = .ok body ct2 cc →
      ¬ ((body.length : Int) > env2.maxImageSize) := by
  constructor
  · rcases hnc with hb | hp
    · simp [handler, hfetch, heng, hbig, hb]
    · cases hb : strTruthy env.transformedBucket <;>
        simp [handler, hfetch, heng, hbig, hb, hp]
  · intro env2 eff2 m p body ct2 cc h
    simp only [handler] at h
    repeat' split at h
    all_goals simp_all

/-- Environment with no cache bucket and a 3-byte size limit. -/
def envNoCacheThree : Env :=
  { transformedBucket := none, maxImageSize := 3, cacheTTL := some "max-age=1" }

/-- Effects of a 2-byte fetch through a codec that doubles the bytes. -/
def effDoublingB : Effects :=
  { fetchResult := some ([7, 7], some "image/png"), orientation := none,
    engine := fun _ body => some (body ++ body), putOk := true }

/-- Concrete instantiation of `C3_oversized_never_inline`. -/
theorem C3_oversized_never_inline_witness :
    (handler envNoCacheThree effDoublingB "GET" "/img/a.jpg/original").1
      = .err 403 "Requested transformed image is too big" :=
  (C3_oversized_never_inline envNoCacheThree effDoublingB "/img/a.jpg/original"
    [7, 7] [7, 7, 7, 7] (some "image/png") (by decide) (by decide) (by decide)
    (Or.inl (by decide))).1

/-- Claim C8: when the transform is not oversized, a cache store is
configured and the cache write fails, the request still succeeds: the
outcome is the 200 inline result carrying the transformed bytes and resolved
content type, and the failed cache write (which was attempted, second
component `true`) does not fail the request. -/
theorem C8_cache_failure_still_inline (env : Env) (eff : Effects) (path : String)
    (b t : Bytes) (ct : Option String)
    (hfetch : eff.fetchResult = some (b, ct))
    (heng : eff.engine
        (executeOps (parseOperations (pathParts path).2) eff.orientation ct).1 b
      = some t)
    (hsmall : ¬ ((t.length : Int) > env.maxImageSize))
    (hbucket : strTruthy env.transformedBucket = true)
    (hput : eff.putOk = false) :
    handler env eff "GET" path =
      (.ok t (executeOps (parseOperations (pathParts path).2) eff.orientation ct).2
        env.cacheTTL, true) := by
  simp [handler, hfetch, heng, hsmall, hbucket, hput]

/-- Environment with a configured cache bucket and a large size limit. -/
def envCacheBig : Env :=
  { transformedBucket := some "transformed-bucket", maxImageSize := 1000,
    cacheTTL := some "max-age=31622400" }

/-- Effects of a 2-byte fetch through an identity codec whose cache write
fails. -/
def effPutFails : Effects :=
  { fetchResult := some ([3, 4], some "image/gif"), orientation := none,
    engine := fun _ body => some body, putOk := false }

/-- Concrete instantiation of `C8_cache_failure_still_inline`. -/
theorem C8_cache_failure_still_inline_witness :
    handler envCacheBig effPutFails "GET" "/img/b.gif/width=10"
      = (.ok [3, 4] (some "image/gif") (some "max-age=31622400"), true) := by
  rw [C8_cache_failure_still_inline envCacheBig effPutFails "/img/b.gif/width=10"
    [3, 4] [3, 4] (some "image/gif") (by decide) (by decide) (by decide)
    (by decide) (by decide)]
  decide

/-- Claim C9: when the source-image fetch fails (network error or
non-success HTTP status — both land in the same catch), the handler
immediately returns `Failure(500)` and no cache write is attempted (second
component `false`), whatever the environment and the rest of the effects. -/
theorem C9_fetch_failure_500_no_cache (env : Env) (eff : Effects) (path : String)
    (hfetch : eff.fetchResult = none) :
    handler env eff "GET" path
      = (.err 500 "Error downloading original image", false) := by
  simp [handler, hfetch]

/-- Effects of a failed fetch (the engine and put outcomes are irrelevant). -/
def effFetchFails : Effects :=
  { fetchResult := none, orientation := none,
    engine := fun _ body => some body, putOk := true }

/-- Concrete instantiation of `C9_fetch_failure_500_no_cache`. -/
theorem C9_fetch_failure_500_no_cache_witness :
    handler envCacheBig effFetchFails "GET" "/img/a.jpg/width=100"
      = (.err 500 "Error downloading original image", false) :=
  C9_fetch_failure_500_no_cache envCacheBig effFetchFails "/img/a.jpg/width=100"
    (by decide)

end ImageOpt
